import Mathlib

/-!
Verification of the spatial simulation layer of the dixons-peak repository:
geometry (AABB intersection), the collision system, the camera system, the
scene manager, and the per-tick player update of `Game.updatePlayer`.

Numbers: the JavaScript source computes with IEEE-754 doubles; every value
reached by the properties below is an exact rational, so the embedding uses
`Rat` throughout.  The one irrational constant, `Math.sqrt(0.5)` used for
diagonal normalisation, is embedded as the exact rational value of the
correctly rounded IEEE-754 double.

Metadata fields that may be `undefined` in the source (collider size fields,
scene dimensions) are embedded as `Option Rat`; arithmetic on an absent field
produces NaN in JavaScript and every comparison against NaN is false, which
the `j`-prefixed operations below reproduce.
-/

namespace DixonsPeak

/-- Axis-aligned rectangle `{x, y, w, h}` with all four fields present
(the well-formed case of the JavaScript rectangle objects). -/
structure Rect where
  x : ℚ
  y : ℚ
  w : ℚ
  h : ℚ
deriving DecidableEq

/-- Embeds `CollisionSystem.intersectsRect` (systems/asset-loader.js lines
168-170): `!(a.x + a.w <= b.x || a.x >= b.x + b.w || a.y + a.h <= b.y ||
a.y >= b.y + b.h)`, for rectangles whose fields are all numbers. -/
def intersectsRect (a b : Rect) : Bool :=
  !(decide (a.x + a.w ≤ b.x) || decide (a.x ≥ b.x + b.w) ||
    decide (a.y + a.h ≤ b.y) || decide (a.y ≥ b.y + b.h))

/-- Embeds `CollisionSystem.checkMovement` (systems/asset-loader.js lines
172-177): scans the collider list and returns true on the first collider
intersecting `playerRect`. -/
def checkMovement (colliders : List Rect) (playerRect : Rect) : Bool :=
  colliders.any fun col => intersectsRect playerRect col

/-- An interactive zone as consumed by the tick: its resolved rectangle
(the `it.rect || it.area || it.zone` fallback of `loadFromMeta` already
applied and a rectangle present), `type`, `dest` and `spawn` fields. -/
structure Interactive where
  rect : Rect
  ty : String
  dest : Option String
  spawn : Option (ℚ × ℚ)
deriving DecidableEq

/-- Embeds `CollisionSystem.findInteractiveOverlap` (systems/asset-loader.js
lines 179-185): first interactive whose rectangle intersects `playerRect`. -/
def findInteractiveOverlap (its : List Interactive) (playerRect : Rect) :
    Option Interactive :=
  its.find? fun it => intersectsRect playerRect it.rect

/-! ## JavaScript-number layer

Collider entries produced by `loadFromMeta` can carry `undefined` size
fields (`c.w || c.width` when the metadata entry has neither).  `none`
stands for `undefined`/NaN: arithmetic involving it yields NaN and every
NaN comparison is false. -/

/-- JavaScript addition where `none` is `undefined`/NaN. -/
def jAdd : Option ℚ → Option ℚ → Option ℚ
  | some a, some b => some (a + b)
  | _, _ => none

/-- JavaScript `<=` on possibly-NaN values: false when either side is NaN. -/
def jLe : Option ℚ → Option ℚ → Bool
  | some a, some b => decide (a ≤ b)
  | _, _ => false

/-- JavaScript `>=` on possibly-NaN values: false when either side is NaN. -/
def jGe : Option ℚ → Option ℚ → Bool
  | some a, some b => decide (b ≤ a)
  | _, _ => false

/-- Rectangle whose fields may be `undefined` (`none`), as stored in
`CollisionSystem.colliders` after loading metadata entries that may be
missing size fields. -/
structure JRect where
  x : Option ℚ
  y : Option ℚ
  w : Option ℚ
  h : Option ℚ
deriving DecidableEq

/-- View of a well-formed rectangle inside the JavaScript-number layer. -/
def toJRect (r : Rect) : JRect :=
  ⟨some r.x, some r.y, some r.w, some r.h⟩

/-- The same source test `CollisionSystem.intersectsRect` applied to
rectangles whose fields may be `undefined`, with the NaN comparison
semantics of the source language. -/
def intersectsRectJ (a b : JRect) : Bool :=
  !(jLe (jAdd a.x a.w) b.x || jGe a.x (jAdd b.x b.w) ||
    jLe (jAdd a.y a.h) b.y || jGe a.y (jAdd b.y b.h))

/-- The source loop of `CollisionSystem.checkMovement` over loaded colliders
that may carry `undefined` size fields. -/
def checkMovementJ (cols : List JRect) (playerRect : JRect) : Bool :=
  cols.any fun col => intersectsRectJ playerRect col

/-- A raw collider entry of scene metadata: position fields present, any of
the size spellings `w`/`width`/`h`/`height` possibly absent. -/
structure MetaCollider where
  x : ℚ
  y : ℚ
  w : Option ℚ := none
  width : Option ℚ := none
  h : Option ℚ := none
  height : Option ℚ := none
deriving DecidableEq

/-- JavaScript `a || b` on number-or-undefined values: falls through to `b`
when `a` is absent or `0` (both falsy). -/
def jsOrOpt : Option ℚ → Option ℚ → Option ℚ
  | some v, b => if v = 0 then b else some v
  | none, b => b

/-- The collider mapping of `CollisionSystem.loadFromMeta` (systems/
asset-loader.js lines 157-159): `{x: c.x, y: c.y, w: c.w || c.width,
h: c.h || c.height}`.  When both size spellings are absent the loaded
collider keeps `undefined` size fields. -/
def loadCollider (c : MetaCollider) : JRect :=
  ⟨some c.x, some c.y, jsOrOpt c.w c.width, jsOrOpt c.h c.height⟩

/-- A raw interactive entry of scene metadata, with the `rect`/`area`/`zone`
spellings all optional. -/
structure MetaInteractive where
  rect : Option Rect := none
  area : Option Rect := none
  zone : Option Rect := none
  ty : String := ""
  dest : Option String := none
  spawn : Option (ℚ × ℚ) := none
deriving DecidableEq

/-- Interactive as stored by `loadFromMeta`: the original fields plus the
resolved `rect: it.rect || it.area || it.zone` (possibly absent). -/
structure LoadedInteractive where
  rect : Option Rect
  ty : String
  dest : Option String
  spawn : Option (ℚ × ℚ)
deriving DecidableEq

/-- The interactive mapping of `CollisionSystem.loadFromMeta` (systems/
asset-loader.js lines 161-164). -/
def loadInteractive (it : MetaInteractive) : LoadedInteractive :=
  ⟨(it.rect.orElse fun _ => it.area).orElse fun _ => it.zone,
   it.ty, it.dest, it.spawn⟩

/-- Scene metadata `{width, height, collision, interactive}` as read by
`loadFromMeta` and `CameraSystem.focusOn`; `imageW`/`imageH` stand for the
`bgMeta.image.width`/`.height` fallback reads of `focusOn` (absent on
metadata objects). -/
structure SceneMeta where
  width : Option ℚ := none
  height : Option ℚ := none
  imageW : Option ℚ := none
  imageH : Option ℚ := none
  collision : List MetaCollider := []
  interactive : List MetaInteractive := []
deriving DecidableEq

/-- State of `CollisionSystem`: the loaded collider and interactive lists. -/
structure CollisionS where
  colliders : List JRect
  interactives : List LoadedInteractive
deriving DecidableEq

/-- Embeds `CollisionSystem.loadFromMeta` (systems/asset-loader.js lines
156-165): replaces both lists wholesale from the metadata. -/
def loadFromMeta (m : SceneMeta) : CollisionS :=
  ⟨m.collision.map loadCollider, m.interactive.map loadInteractive⟩

/-! ## Camera system -/

/-- JavaScript `a || b` where `a` is a number-or-undefined field and `b` a
number: `b` when `a` is absent or `0`. -/
def jsOr (a : Option ℚ) (b : ℚ) : ℚ :=
  match a with
  | some v => if v = 0 then b else v
  | none => b

/-- The `bgW` read of `CameraSystem.focusOn`:
`bgMeta.width || (bgMeta.image && bgMeta.image.width) || 0`. -/
def bgWOf (m : SceneMeta) : ℚ :=
  jsOr m.width (jsOr m.imageW 0)

/-- The `bgH` read of `CameraSystem.focusOn`:
`bgMeta.height || (bgMeta.image && bgMeta.image.height) || 0`. -/
def bgHOf (m : SceneMeta) : ℚ :=
  jsOr m.height (jsOr m.imageH 0)

/-- Embeds `CameraSystem.focusOn` (systems/camera-system.js lines 10-24) for
a camera of viewport `camW × camH`: centers on `(px, py)` with
`Math.round(px - w/2)` and clamps each axis to
`[0, max(0, bg - view)]`; returns the resulting `(x, y)` offset. -/
def focusOn (camW camH px py : ℚ) (m : SceneMeta) : ℚ × ℚ :=
  let bgW := bgWOf m
  let bgH := bgHOf m
  let tx : ℚ := ((round (px - camW / 2) : ℤ) : ℚ)
  let ty : ℚ := ((round (py - camH / 2) : ℤ) : ℚ)
  (max 0 (min tx (max 0 (bgW - camW))), max 0 (min ty (max 0 (bgH - camH))))

/-! ## Simulation tick (`Game.updatePlayer`, src/game.js lines 173-267) -/

/-- The per-tick input snapshot of `InputHandler.keys` (`keysPrevious` has
the same shape). -/
structure Keys where
  w : Bool
  a : Bool
  s : Bool
  d : Bool
  space : Bool
deriving DecidableEq

/-- Movement state of the player (`player.state`), restricted to the two
values the tick writes. -/
inductive PState where
  | idle
  | walk
deriving DecidableEq

/-- Facing direction of the player (`player.direction`). -/
inductive Dir where
  | up
  | down
  | left
  | right
deriving DecidableEq

/-- Player physical state as read and written by `Game.updatePlayer`. -/
structure Player where
  x : ℚ
  y : ℚ
  width : ℚ
  height : ℚ
  speed : ℚ
  state : PState
  dir : Dir
deriving DecidableEq

/-- The ambient objects the tick reads: the collision lists (well-formed
view), presence flags for the optional `collision`, `sceneManager` and
`camera` collaborators, the metadata of `sceneManager.current` (when a
scene is loaded), the canvas dimensions, and the camera viewport. -/
structure Env where
  colliders : List Rect
  interactives : List Interactive
  hasCollision : Bool
  hasSceneManager : Bool
  hasCamera : Bool
  currentMeta : Option SceneMeta
  canvasW : ℚ
  canvasH : ℚ
  camW : ℚ
  camH : ℚ
deriving DecidableEq

/-- Exact rational value of the IEEE-754 double `Math.sqrt(0.5)` (the
correctly rounded square root of one half). -/
def sqrtHalf : ℚ := 6369051672525773 / 2 ^ 53

/-- Movement vector derivation of `Game.updatePlayer` (game.js lines
175-186): unit axis contributions from the `w`/`s`/`a`/`d` keys, both
components scaled by `Math.sqrt(0.5)` when both axes are non-zero. -/
def moveVec (k : Keys) : ℚ × ℚ :=
  let mx : ℚ := (if k.a then -1 else 0) + (if k.d then 1 else 0)
  let my : ℚ := (if k.w then -1 else 0) + (if k.s then 1 else 0)
  if mx ≠ 0 ∧ my ≠ 0 then (mx * sqrtHalf, my * sqrtHalf) else (mx, my)

/-- Candidate position of the tick (game.js lines 189-190):
`position + move × speed × deltaTime`. -/
def candidatePos (p : Player) (k : Keys) (dt : ℚ) : ℚ × ℚ :=
  (p.x + (moveVec k).1 * p.speed * dt, p.y + (moveVec k).2 * p.speed * dt)

/-- Candidate rectangle of the tick (game.js line 191). -/
def candidateRect (p : Player) (k : Keys) (dt : ℚ) : Rect :=
  ⟨(candidatePos p k dt).1, (candidatePos p k dt).2, p.width, p.height⟩

/-- The `blocked` flag of the tick (game.js lines 193-196): false when no
collision system is wired, otherwise `checkMovement` on the candidate. -/
def blockedOf (env : Env) (p : Player) (k : Keys) (dt : ℚ) : Bool :=
  env.hasCollision && checkMovement env.colliders (candidateRect p k dt)

/-- Position committed by the movement step (game.js lines 198-214): the
candidate when not blocked, the previous position otherwise. -/
def committedPos (env : Env) (p : Player) (k : Keys) (dt : ℚ) : ℚ × ℚ :=
  if blockedOf env p k dt then (p.x, p.y) else candidatePos p k dt

/-- Player rectangle at the committed (pre-clamp) position, as built for the
interaction test (game.js line 218). -/
def committedRect (env : Env) (p : Player) (k : Keys) (dt : ℚ) : Rect :=
  ⟨(committedPos env p k dt).1, (committedPos env p k dt).2, p.width, p.height⟩

/-- Movement state after the movement step (game.js lines 198-214): `idle`
when blocked; `walk` when a non-zero vector was committed; otherwise left
as it was. -/
def stateAfterMove (env : Env) (p : Player) (k : Keys) (dt : ℚ) : PState :=
  if blockedOf env p k dt then .idle
  else if (moveVec k).1 ≠ 0 ∨ (moveVec k).2 ≠ 0 then .walk
  else p.state

/-- Facing direction after the movement step (game.js lines 204-211):
updated by dominant axis only when a non-zero vector was committed. -/
def dirAfterMove (env : Env) (p : Player) (k : Keys) (dt : ℚ) : Dir :=
  if blockedOf env p k dt then p.dir
  else if (moveVec k).1 ≠ 0 ∨ (moveVec k).2 ≠ 0 then
    if |(moveVec k).1| > |(moveVec k).2| then
      if (moveVec k).1 > 0 then .right else .left
    else if (moveVec k).2 ≠ 0 then
      if (moveVec k).2 > 0 then .down else .up
    else p.dir
  else p.dir

/-- The scene-transition request of the tick (game.js lines 217-234): only
when both the collision system and the scene manager are wired, the player
rectangle at the committed position overlaps an interactive, the space key
shows a pressed edge, the interactive is a door and its `dest` is truthy.
The request carries the destination and the spawn point handed to
`SceneManager.loadScene`. -/
def requestOf (env : Env) (p : Player) (k kp : Keys) (dt : ℚ) :
    Option (String × Option (ℚ × ℚ)) :=
  if env.hasCollision && env.hasSceneManager then
    match findInteractiveOverlap env.interactives (committedRect env p k dt) with
    | some it =>
        if k.space && !kp.space then
          if it.ty = "door" then
            match it.dest with
            | some d => if d = "" then none else some (d, it.spawn)
            | none => none
          else none
        else none
    | none => none
  else none

/-- The bounds clamp of the tick (game.js lines 244-266): when the camera,
the scene manager, a current scene and its metadata are all present, each
axis becomes `Math.max(0, Math.min(pos, (meta.dim || canvas.dim) - size))`;
otherwise the sequential canvas-bounds clamp of the else branch. -/
def clampStep (env : Env) (pw ph : ℚ) (xy : ℚ × ℚ) : ℚ × ℚ :=
  match (if env.hasCamera && env.hasSceneManager then env.currentMeta else none) with
  | some m =>
      (max 0 (min xy.1 (jsOr m.width env.canvasW - pw)),
       max 0 (min xy.2 (jsOr m.height env.canvasH - ph)))
  | none =>
      (min (max xy.1 0) (env.canvasW - pw),
       min (max xy.2 0) (env.canvasH - ph))

/-- The camera focus update of the tick (game.js lines 252 and 263-265):
`focusOn` at the clamped player center, with the scene metadata when
present and the empty object otherwise; `none` when no camera is wired. -/
def cameraAfter (env : Env) (pw ph : ℚ) (xy : ℚ × ℚ) : Option (ℚ × ℚ) :=
  if env.hasCamera then
    match (if env.hasSceneManager then env.currentMeta else none) with
    | some m => some (focusOn env.camW env.camH (xy.1 + pw / 2) (xy.2 + ph / 2) m)
    | none => some (focusOn env.camW env.camH (xy.1 + pw / 2) (xy.2 + ph / 2) {})
  else none

/-- Everything one call of `Game.updatePlayer` writes: the player position
after the clamp, the movement state and direction, the camera offset, the
issued scene-transition request (the `loadScene` call it fires), whether
`switchCharacter()` was invoked, and the advanced previous-keys buffer. -/
structure TickOut where
  pos : ℚ × ℚ
  state : PState
  dir : Dir
  cam : Option (ℚ × ℚ)
  request : Option (String × Option (ℚ × ℚ))
  switched : Bool
  keysPrev : Keys
deriving DecidableEq

/-- Embeds one call of `Game.updatePlayer` (game.js lines 173-267): the
movement step, the interaction test at the committed position, the
character switch on the same edge, the previous-keys advance, the bounds
clamp and the camera focus update. -/
def updatePlayer (env : Env) (p : Player) (k kp : Keys) (dt : ℚ) : TickOut :=
  let xy := clampStep env p.width p.height (committedPos env p k dt)
  { pos := xy
    state := stateAfterMove env p k dt
    dir := dirAfterMove env p k dt
    cam := cameraAfter env p.width p.height xy
    request := requestOf env p k kp dt
    switched := k.space && !kp.space
    keysPrev := k }

/-- Carries one tick output back into the player record for the next tick. -/
def stepPlayer (p : Player) (o : TickOut) : Player :=
  { p with x := o.pos.1, y := o.pos.2, state := o.state, dir := o.dir }

/-- Runs `updatePlayer` over a list of `(snapshot, deltaTime)` inputs,
threading the player state and the previous-keys buffer exactly as the
game loop does, and collects the tick outputs. -/
def runTicks (env : Env) : Player → Keys → List (Keys × ℚ) → List TickOut
  | _, _, [] => []
  | p, kp, kdt :: rest =>
      let o := updatePlayer env p kdt.1 kp kdt.2
      o :: runTicks env (stepPlayer p o) o.keysPrev rest

/-! ## Scene manager (`SceneManager.loadScene`) -/

/-- A loaded background entry of `assetLoader.backgrounds`: the image handle
is opaque, only the attached metadata matters to this layer. -/
structure BgEntry where
  meta : Option SceneMeta
deriving DecidableEq

/-- A background entry of the asset manifest (`assetLoader.assets.backgrounds`). -/
structure ManifestEntry where
  path : String := ""
  meta : Option SceneMeta := none
deriving DecidableEq

/-- State owned by `SceneManager` together with the loaded-background and
manifest maps of its `assetLoader`. -/
structure SceneManagerS where
  backgrounds : List (String × BgEntry)
  manifest : List (String × ManifestEntry)
  currentName : Option String
  current : Option BgEntry
deriving DecidableEq

/-- Name lookup in a JavaScript-object-as-map, first binding wins. -/
def lookupName {α : Type} (l : List (String × α)) (k : String) : Option α :=
  (l.find? fun e => decide (e.1 = k)).map fun e => e.2

/-- The failure conditions of `SceneManager.loadScene`; the thrown
`Background not found in asset manifest` error is the `SceneNotFound`
condition of the specification. -/
inductive LoadError where
  | SceneNotFound (name : String)
deriving DecidableEq

/-- Embeds `SceneManager.loadScene` (unnamed scene-manager source, lines
11-33): uses the already-loaded background if present; otherwise consults
the manifest, throwing `SceneNotFound` when the name is absent, and
performing the on-demand load when present (the external image fetch is
modelled as succeeding and installing the manifest metadata).  On success
it publishes the scene as current, replaces the collision lists from the
scene metadata (`loadFromMeta(current.meta || {})`) and returns the spawn
point unchanged. -/
def loadScene (sm : SceneManagerS) (_cs : CollisionS) (name : String)
    (spawn : Option (ℚ × ℚ)) :
    Except LoadError (SceneManagerS × CollisionS × Option (ℚ × ℚ)) :=
  match lookupName sm.backgrounds name with
  | some entry =>
      .ok ({ sm with currentName := some name, current := some entry },
           loadFromMeta (entry.meta.getD {}), spawn)
  | none =>
      match lookupName sm.manifest name with
      | none => .error (.SceneNotFound name)
      | some mEntry =>
          let entry : BgEntry := ⟨mEntry.meta⟩
          .ok ({ sm with
                  backgrounds := sm.backgrounds ++ [(name, entry)],
                  currentName := some name,
                  current := some entry },
               loadFromMeta (entry.meta.getD {}), spawn)

/-- How the tick consumes a transition request (game.js lines 225-230): on
success the new scene state is published and the player is moved to the
returned spawn point when one is present; a failure is logged by the
`.catch` handler and otherwise ignored, leaving everything unchanged. -/
def applyRequest (sm : SceneManagerS) (cs : CollisionS) (pos : ℚ × ℚ)
    (req : Option (String × Option (ℚ × ℚ))) :
    SceneManagerS × CollisionS × (ℚ × ℚ) :=
  match req with
  | none => (sm, cs, pos)
  | some r =>
      match loadScene sm cs r.1 r.2 with
      | .error _ => (sm, cs, pos)
      | .ok (sm2, cs2, spawn) =>
          (sm2, cs2, match spawn with | some s => s | none => pos)

/-! ## Shared lemmas -/

/-- Unfolds the open-interval overlap test into the four strict inequalities. -/
theorem intersectsRect_eq_true_iff (a b : Rect) :
    intersectsRect a b = true ↔
      b.x < a.x + a.w ∧ a.x < b.x + b.w ∧ b.y < a.y + a.h ∧ a.y < b.y + b.h := by
  simp [intersectsRect, not_le, ge_iff_le, and_assoc]

/-- A movement query blocks exactly when some collider of the list intersects. -/
theorem checkMovement_eq_true_iff (cols : List Rect) (r : Rect) :
    checkMovement cols r = true ↔ ∃ c ∈ cols, intersectsRect r c = true := by
  simp [checkMovement]

@[simp]
theorem updatePlayer_pos (env : Env) (p : Player) (k kp : Keys) (dt : ℚ) :
    (updatePlayer env p k kp dt).pos =
      clampStep env p.width p.height (committedPos env p k dt) := rfl

@[simp]
theorem updatePlayer_state (env : Env) (p : Player) (k kp : Keys) (dt : ℚ) :
    (updatePlayer env p k kp dt).state = stateAfterMove env p k dt := rfl

@[simp]
theorem updatePlayer_request (env : Env) (p : Player) (k kp : Keys) (dt : ℚ) :
    (updatePlayer env p k kp dt).request = requestOf env p k kp dt := rfl

@[simp]
theorem updatePlayer_switched (env : Env) (p : Player) (k kp : Keys) (dt : ℚ) :
    (updatePlayer env p k kp dt).switched = (k.space && !kp.space) := rfl

@[simp]
theorem updatePlayer_keysPrev (env : Env) (p : Player) (k kp : Keys) (dt : ℚ) :
    (updatePlayer env p k kp dt).keysPrev = k := rfl

/-! ## Claim C2 -/

/-- Claim C2: `checkMovement(R)` returns true iff some collider of the loaded
list overlaps `R` under the open-interval test, and rectangles that exactly
touch at a shared edge (`R.x + R.w = C.x`) do not intersect, so touching
never blocks. -/
theorem checkMovement_iff_open_overlap (r : Rect) (cols : List Rect) :
    (checkMovement cols r = true ↔
      ∃ c ∈ cols, c.x < r.x + r.w ∧ r.x < c.x + c.w ∧ c.y < r.y + r.h ∧ r.y < c.y + c.h)
    ∧ ∀ c : Rect, r.x + r.w = c.x → intersectsRect r c = false := by
  constructor
  · simp [checkMovement_eq_true_iff, intersectsRect_eq_true_iff]
  · intro c h
    have hle : r.x + r.w ≤ c.x := le_of_eq h
    simp [intersectsRect, hle]

/-- Witness for C2 at a concrete touching pair: the rectangle `[0,3]×[0,3]`
touching the collider `[3,5]×[0,2]` along `x = 3` does not intersect it. -/
theorem checkMovement_iff_open_overlap_witness :
    intersectsRect ⟨0, 0, 3, 3⟩ ⟨3, 0, 2, 2⟩ = false :=
  (checkMovement_iff_open_overlap ⟨0, 0, 3, 3⟩ []).2 ⟨3, 0, 2, 2⟩ (by norm_num)

/-! ## Claim C3 -/

/-- Claim C3: for bounds carrying a width at least the viewport width (and a
positive viewport), the focused camera offset is clamped into
`[0, width - camW] × [0, height - camH]`; concretely with 800×600 bounds and
a 640×480 viewport, focusing `(10,10)` yields `(0,0)` and focusing
`(790,590)` yields `(160,120)`. -/
theorem focusOn_offset_within_bounds (camW camH px py W H : ℚ) (m : SceneMeta)
    (hw : m.width = some W) (hh : m.height = some H)
    (h0w : 0 < camW) (h0h : 0 < camH) (hW : camW ≤ W) (hH : camH ≤ H) :
    (0 ≤ (focusOn camW camH px py m).1 ∧ (focusOn camW camH px py m).1 ≤ W - camW ∧
      0 ≤ (focusOn camW camH px py m).2 ∧ (focusOn camW camH px py m).2 ≤ H - camH)
    ∧ focusOn 640 480 10 10 { width := some 800, height := some 600 } = (0, 0)
    ∧ focusOn 640 480 790 590 { width := some 800, height := some 600 } = (160, 120) := by
  have hW0 : W ≠ 0 := ne_of_gt (lt_of_lt_of_le h0w hW)
  have hH0 : H ≠ 0 := ne_of_gt (lt_of_lt_of_le h0h hH)
  refine ⟨?_, ?_, ?_⟩
  · have hbw : bgWOf m = W := by simp [bgWOf, jsOr, hw, hW0]
    have hbh : bgHOf m = H := by simp [bgHOf, jsOr, hh, hH0]
    have h1 : max (0:ℚ) (W - camW) = W - camW := max_eq_right (by linarith)
    have h2 : max (0:ℚ) (H - camH) = H - camH := max_eq_right (by linarith)
    simp only [focusOn, hbw, hbh, h1, h2]
    refine ⟨le_max_left _ _, ?_, le_max_left _ _, ?_⟩
    · exact max_le (by linarith) (min_le_right _ _)
    · exact max_le (by linarith) (min_le_right _ _)
  · norm_num [focusOn, bgWOf, bgHOf, jsOr, round_eq, Int.floor_eq_iff]
  · norm_num [focusOn, bgWOf, bgHOf, jsOr, round_eq, Int.floor_eq_iff]

/-- Witness for C3 at the concrete scenario bounds 800×600 with the 640×480
viewport and focus point `(10, 10)`. -/
theorem focusOn_offset_within_bounds_witness :
    0 ≤ (focusOn 640 480 10 10 ({ width := some 800, height := some 600 } : SceneMeta)).1 :=
  (focusOn_offset_within_bounds 640 480 10 10 800 600 _ rfl rfl (by norm_num)
    (by norm_num) (by norm_num) (by norm_num)).1.1

/-! ## Claim C4 -/

/-- Counterexample to Claim C4: with absent bounds (the empty metadata
object) the camera is not left at the unclamped centering offset; focusing
`(1000, 1000)` with the 640×480 viewport yields `(0, 0)`, while the
unclamped centering offset `Math.round(p - view/2)` is `(680, 760)`. -/
theorem focusOn_no_bounds_counterexample :
    focusOn 640 480 1000 1000 {} = (0, 0)
    ∧ ((round ((1000:ℚ) - 640 / 2) : ℤ) : ℚ) = 680
    ∧ ((round ((1000:ℚ) - 480 / 2) : ℤ) : ℚ) = 760
    ∧ ((0:ℚ), (0:ℚ)) ≠ ((680:ℚ), (760:ℚ)) := by
  refine ⟨by norm_num [focusOn, bgWOf, bgHOf, jsOr, round_eq, Int.floor_eq_iff],
    by norm_num [round_eq, Int.floor_eq_iff], by norm_num [round_eq, Int.floor_eq_iff], ?_⟩
  intro h
  have h1 := congrArg Prod.fst h
  norm_num at h1

/-- Claim C4 (amended): when the scene bounds are absent or zero-sized (both
effective background dimensions resolve to `0`), clamping is not skipped:
the clamp interval degenerates to `[0, 0]` on each axis and the camera
offset is pinned to `(0, 0)` for every focus point. -/
theorem focusOn_zero_bounds_pins_origin (camW camH px py : ℚ) (m : SceneMeta)
    (h0w : 0 ≤ camW) (h0h : 0 ≤ camH) (hbw : bgWOf m = 0) (hbh : bgHOf m = 0) :
    focusOn camW camH px py m = (0, 0) := by
  simp only [focusOn, hbw, hbh]
  have h1 : max (0:ℚ) (0 - camW) = 0 := max_eq_left (by linarith)
  have h2 : max (0:ℚ) (0 - camH) = 0 := max_eq_left (by linarith)
  rw [h1, h2]
  have g1 : max (0:ℚ) (min ((round (px - camW / 2) : ℤ) : ℚ) 0) = 0 :=
    max_eq_left (min_le_right _ _)
  have g2 : max (0:ℚ) (min ((round (py - camH / 2) : ℤ) : ℚ) 0) = 0 :=
    max_eq_left (min_le_right _ _)
  rw [g1, g2]

/-- Witness for the amended C4 at the empty metadata object and focus
`(1000, 1000)`. -/
theorem focusOn_zero_bounds_pins_origin_witness :
    focusOn 640 480 1000 1000 ({} : SceneMeta) = (0, 0) :=
  focusOn_zero_bounds_pins_origin 640 480 1000 1000 {} (by norm_num) (by norm_num)
    (by norm_num [bgWOf, jsOr]) (by norm_num [bgHOf, jsOr])

/-! ## Claim C7 -/

/-- Claim C7: loading a scene whose name is absent from the asset manifest
(and, as in every reachable state, not already among the loaded
backgrounds) fails with `SceneNotFound`, and the tick-level handler of the
failed request leaves the scene-manager state, the collision lists and the
player position unchanged. -/
theorem loadScene_not_found_unchanged (sm : SceneManagerS) (cs : CollisionS)
    (name : String) (spawn : Option (ℚ × ℚ)) (pos : ℚ × ℚ)
    (hbg : lookupName sm.backgrounds name = none)
    (hman : lookupName sm.manifest name = none) :
    loadScene sm cs name spawn = .error (.SceneNotFound name)
    ∧ applyRequest sm cs pos (some (name, spawn)) = (sm, cs, pos) := by
  have hload : loadScene sm cs name spawn = .error (.SceneNotFound name) := by
    rw [loadScene, hbg, hman]
  exact ⟨hload, by rw [applyRequest, hload]⟩

/-- Witness for C7: an empty scene manager rejects the name `nowhere` and
the failed request changes nothing. -/
theorem loadScene_not_found_unchanged_witness :
    loadScene ⟨[], [], none, none⟩ ⟨[], []⟩ "nowhere" none =
      .error (.SceneNotFound "nowhere")
    ∧ applyRequest ⟨[], [], none, none⟩ ⟨[], []⟩ (1, 2) (some ("nowhere", none)) =
      (⟨[], [], none, none⟩, ⟨[], []⟩, (1, 2)) :=
  loadScene_not_found_unchanged ⟨[], [], none, none⟩ ⟨[], []⟩ "nowhere" none (1, 2) rfl rfl

/-! ## Claim C8 -/

/-- Metadata carrying one malformed collider entry: position `(0, 0)` and
no size fields in either spelling. -/
def metaBad : SceneMeta := { collision := [⟨0, 0, none, none, none, none⟩] }

/-- Counterexample to Claim C8: `loadFromMeta` does not substitute a
zero-size rectangle for the malformed entry — it loads it with `undefined`
size fields — and under the NaN comparison semantics that collider makes
`checkMovement` return true, here for the candidate rectangle
`{0, 0, 96, 96}`. -/
theorem malformed_collider_blocks_counterexample :
    (loadFromMeta metaBad).colliders = [⟨some 0, some 0, none, none⟩]
    ∧ checkMovementJ (loadFromMeta metaBad).colliders (toJRect ⟨0, 0, 96, 96⟩) = true := by
  constructor
  · rfl
  · norm_num [checkMovementJ, loadFromMeta, metaBad, loadCollider, jsOrOpt, toJRect,
      intersectsRectJ, jAdd, jLe, jGe]

/-- Claim C8 (amended): a collider entry missing both size spellings is
loaded with `undefined` width and height (no zero-size substitution and no
warning is emitted by the code); under the NaN comparison semantics such a
collider intersects a candidate rectangle `R` exactly when
`c.x < R.x + R.w` and `c.y < R.y + R.h`, so a malformed collider blocks an
unbounded quarter-plane of candidates rather than none. -/
theorem malformed_collider_blocks_iff (c : MetaCollider) (r : Rect)
    (hw : c.w = none) (hwidth : c.width = none)
    (hh : c.h = none) (hheight : c.height = none) :
    loadCollider c = ⟨some c.x, some c.y, none, none⟩
    ∧ (intersectsRectJ (toJRect r) (loadCollider c) = true ↔
        c.x < r.x + r.w ∧ c.y < r.y + r.h) := by
  have h1 : loadCollider c = ⟨some c.x, some c.y, none, none⟩ := by
    simp [loadCollider, hw, hwidth, hh, hheight, jsOrOpt]
  refine ⟨h1, ?_⟩
  rw [h1]
  simp [intersectsRectJ, toJRect, jAdd, jLe, jGe, not_le]

/-- Witness for the amended C8: the loaded malformed collider at `(0, 0)`
blocks the candidate rectangle `{0, 0, 96, 96}`. -/
theorem malformed_collider_blocks_iff_witness :
    intersectsRectJ (toJRect ⟨0, 0, 96, 96⟩) (loadCollider ⟨0, 0, none, none, none, none⟩) =
      true :=
  ((malformed_collider_blocks_iff ⟨0, 0, none, none, none, none⟩ ⟨0, 0, 96, 96⟩
    rfl rfl rfl rfl).2).mpr (by norm_num)

/-! ## Claim C9 -/

/-- Tick environment of the end-to-end scenario of C9: the single collider
`{x:140, y:90, w:20, h:40}`, a collision system wired, no camera or scene
manager, an 800×600 canvas. -/
def envC9 : Env :=
  { colliders := [⟨140, 90, 20, 40⟩]
    interactives := []
    hasCollision := true
    hasSceneManager := false
    hasCamera := false
    currentMeta := none
    canvasW := 800
    canvasH := 600
    camW := 640
    camH := 480 }

/-- Player of the C9 scenario: position `(100, 100)`, size 96×96, speed 0.2. -/
def pC9 : Player := ⟨100, 100, 96, 96, 1/5, .idle, .down⟩

/-- Snapshot holding only the rightward key `d`. -/
def kD : Keys := ⟨false, false, false, true, false⟩

/-- Snapshot with every key released. -/
def kNone : Keys := ⟨false, false, false, false, false⟩

/-- Counterexample to Claim C9: on the first tick of the scenario the
candidate position is indeed `x = 110`, but the candidate rectangle
`{110, 100, 96, 96}` already overlaps the collider `{140, 90, 20, 40}`, so
the move is rejected on the first tick: the position stays `(100, 100)`
rather than advancing to `(110, 100)` as the claim states. -/
theorem scenario_first_tick_rejected :
    candidatePos pC9 kD 50 = (110, 100)
    ∧ checkMovement envC9.colliders (candidateRect pC9 kD 50) = true
    ∧ (updatePlayer envC9 pC9 kD kNone 50).pos = (100, 100)
    ∧ (updatePlayer envC9 pC9 kD kNone 50).pos ≠ (110, 100) := by
  refine ⟨by norm_num [candidatePos, moveVec, pC9, kD], ?_, ?_, ?_⟩ <;>
    norm_num [updatePlayer, clampStep, committedPos, blockedOf, candidateRect,
      candidatePos, moveVec, checkMovement, intersectsRect, envC9, pC9, kD, kNone,
      Prod.ext_iff]

/-- Claim C9 (amended): in the scenario the candidate `x = 110` of the first
tick already overlaps the collider, so the move is rejected on the very
first tick and on the second alike: across two rightward ticks the
position stays `(100, 100)` and the movement state stays idle. -/
theorem scenario_blocked_both_ticks :
    ((runTicks envC9 pC9 kNone [(kD, 50), (kD, 50)]).map fun o => (o.pos, o.state)) =
      [((100, 100), .idle), ((100, 100), .idle)]
    ∧ candidatePos pC9 kD 50 = (110, 100)
    ∧ intersectsRect (candidateRect pC9 kD 50) ⟨140, 90, 20, 40⟩ = true := by
  refine ⟨?_, by norm_num [candidatePos, moveVec, pC9, kD], ?_⟩ <;>
    norm_num [runTicks, stepPlayer, updatePlayer, clampStep, committedPos, blockedOf,
      candidateRect, candidatePos, moveVec, checkMovement, intersectsRect,
      stateAfterMove, dirAfterMove, requestOf, cameraAfter, envC9, pC9, kD, kNone]

/-! ## Claim C10 -/

/-- Claim C10: on a tick where the space edge fires (pressed now, not on the
previous tick) while the player rectangle at the committed position
overlaps a door interactive with a truthy destination, the tick both
issues the scene-transition request for that destination and invokes
`switchCharacter()`: a single press performs both effects. -/
theorem space_edge_requests_and_switches (env : Env) (p : Player) (k kp : Keys) (dt : ℚ)
    (hcs : env.hasCollision = true) (hsm : env.hasSceneManager = true)
    (hk : k.space = true) (hkp : kp.space = false)
    (it : Interactive)
    (hit : findInteractiveOverlap env.interactives (committedRect env p k dt) = some it)
    (hdoor : it.ty = "door") (d : String) (hd : it.dest = some d) (hdne : d ≠ "") :
    (updatePlayer env p k kp dt).request = some (d, it.spawn)
    ∧ (updatePlayer env p k kp dt).switched = true := by
  constructor
  · rw [updatePlayer_request, requestOf, hcs, hsm]
    simp [hit, hdoor, hd, hk, hkp, hdne]
  · rw [updatePlayer_switched, hk, hkp]
    rfl

/-- Tick environment for the C10 witness: one door interactive covering
`[0,400]×[0,400]` with destination `cave` and spawn `(5, 7)`. -/
def envC10 : Env :=
  { colliders := []
    interactives := [⟨⟨0, 0, 400, 400⟩, "door", some "cave", some (5, 7)⟩]
    hasCollision := true
    hasSceneManager := true
    hasCamera := false
    currentMeta := none
    canvasW := 800
    canvasH := 600
    camW := 640
    camH := 480 }

/-- Snapshot holding only the space key. -/
def kSpace : Keys := ⟨false, false, false, false, true⟩

/-- Witness for C10: a fresh space press while standing on the door issues
the transition request and switches the character on the same tick. -/
theorem space_edge_requests_and_switches_witness :
    (updatePlayer envC10 pC9 kSpace kNone 16).request = some ("cave", some (5, 7))
    ∧ (updatePlayer envC10 pC9 kSpace kNone 16).switched = true :=
  space_edge_requests_and_switches envC10 pC9 kSpace kNone 16 rfl rfl rfl rfl
    ⟨⟨0, 0, 400, 400⟩, "door", some "cave", some (5, 7)⟩
    (by norm_num [findInteractiveOverlap, committedRect, committedPos, blockedOf,
      candidateRect, candidatePos, moveVec, checkMovement, intersectsRect,
      envC10, pC9, kSpace, List.find?])
    rfl "cave" rfl (by decide)

/-! ## Claim C1 -/

/-- Tick environment for the C1 counterexample: a 400×400 scene whose single
collider `{300, 0, 10, 400}` hugs the right region, all collaborators
wired. -/
def envC1 : Env :=
  { colliders := [⟨300, 0, 10, 400⟩]
    interactives := []
    hasCollision := true
    hasSceneManager := true
    hasCamera := true
    currentMeta := some { width := some 400, height := some 400 }
    canvasW := 800
    canvasH := 600
    camW := 640
    camH := 480 }

/-- Player for the C1 counterexample at `(100, 100)`, size 96×96, speed 0.2. -/
def pC1 : Player := ⟨100, 100, 96, 96, 1/5, .idle, .down⟩

/-- Counterexample to Claim C1: from the in-bounds, non-overlapping state
`(100, 100)`, one rightward tick with `deltaTime = 1500` produces the
candidate `x = 400`, which overlaps no collider, so the move is accepted;
the bounds clamp then relocates the player to `x = 304` without re-checking
collision, and the resulting rectangle `{304, 100, 96, 96}` overlaps the
collider `{300, 0, 10, 400}`: after the tick completes the player overlaps
a collider of the active scene. -/
theorem tick_overlap_counterexample :
    checkMovement envC1.colliders ⟨pC1.x, pC1.y, pC1.width, pC1.height⟩ = false
    ∧ clampStep envC1 pC1.width pC1.height (pC1.x, pC1.y) = (pC1.x, pC1.y)
    ∧ (updatePlayer envC1 pC1 kD kNone 1500).pos = (304, 100)
    ∧ checkMovement envC1.colliders
        ⟨(updatePlayer envC1 pC1 kD kNone 1500).pos.1,
          (updatePlayer envC1 pC1 kD kNone 1500).pos.2, pC1.width, pC1.height⟩ = true := by
  refine ⟨?_, ?_, ?_, ?_⟩ <;>
    norm_num [updatePlayer, clampStep, committedPos, blockedOf, candidateRect,
      candidatePos, moveVec, checkMovement, intersectsRect, jsOr, envC1, pC1, kD, kNone]

/-- Claim C1 (amended): after a tick from a state whose rectangle overlaps
no collider, the player rectangle again overlaps no collider, provided the
bounds clamp leaves the committed position unchanged (the committed
position already lies inside the clamp range); when the clamp relocates an
out-of-range committed position the relocated rectangle can overlap a
collider, as the counterexample shows. -/
theorem tick_no_overlap_of_clamp_fix (env : Env) (p : Player) (k kp : Keys) (dt : ℚ)
    (hcol : env.hasCollision = true)
    (hprev : checkMovement env.colliders ⟨p.x, p.y, p.width, p.height⟩ = false)
    (hclamp : clampStep env p.width p.height (committedPos env p k dt) =
      committedPos env p k dt) :
    checkMovement env.colliders
      ⟨(updatePlayer env p k kp dt).pos.1, (updatePlayer env p k kp dt).pos.2,
        p.width, p.height⟩ = false := by
  have hp : (updatePlayer env p k kp dt).pos = committedPos env p k dt := by
    rw [updatePlayer_pos, hclamp]
  rw [hp]
  rcases Bool.eq_false_or_eq_true (blockedOf env p k dt) with hb | hb
  · have hc : committedPos env p k dt = (p.x, p.y) := by
      simp [committedPos, hb]
    rw [hc]
    exact hprev
  · have hc : committedPos env p k dt = candidatePos p k dt := by
      simp [committedPos, hb]
    rw [hc]
    have hfree : checkMovement env.colliders (candidateRect p k dt) = false := by
      have h2 := hb
      rw [blockedOf, hcol, Bool.true_and] at h2
      exact h2
    exact hfree

/-- Witness for the amended C1: the scenario player one slow tick to the
right, whose candidate stays inside the scene bounds, ends the tick not
overlapping the collider. -/
theorem tick_no_overlap_of_clamp_fix_witness :
    checkMovement envC1.colliders
      ⟨(updatePlayer envC1 pC1 kD kNone 50).pos.1,
        (updatePlayer envC1 pC1 kD kNone 50).pos.2, pC1.width, pC1.height⟩ = false :=
  tick_no_overlap_of_clamp_fix envC1 pC1 kD kNone 50 rfl
    (by norm_num [checkMovement, intersectsRect, envC1, pC1])
    (by norm_num [clampStep, committedPos, blockedOf, candidateRect, candidatePos,
      moveVec, checkMovement, intersectsRect, jsOr, envC1, pC1, kD])

/-! ## Claim C5 -/

/-- Claim C5: a tick entered in the idle state (every tick is, because the
render step resets the state to idle at the end of each frame) leaves the
state `walk` exactly when a non-zero movement vector was committed: with a
zero vector the state is idle on that very tick, and when the candidate is
blocked the state is set to idle and the position is unchanged (the clamp
fixing the in-bounds prior position). -/
theorem tick_walk_iff_nonzero_committed (env : Env) (p : Player) (k kp : Keys) (dt : ℚ)
    (hstate : p.state = .idle) :
    ((updatePlayer env p k kp dt).state = .walk ↔
      ((moveVec k).1 ≠ 0 ∨ (moveVec k).2 ≠ 0) ∧ blockedOf env p k dt = false)
    ∧ (moveVec k = (0, 0) → (updatePlayer env p k kp dt).state = .idle)
    ∧ (blockedOf env p k dt = true → (updatePlayer env p k kp dt).state = .idle)
    ∧ (blockedOf env p k dt = true →
        clampStep env p.width p.height (p.x, p.y) = (p.x, p.y) →
        (updatePlayer env p k kp dt).pos = (p.x, p.y)) := by
  refine ⟨?_, ?_, ?_, ?_⟩
  · rw [updatePlayer_state]
    rcases Bool.eq_false_or_eq_true (blockedOf env p k dt) with hb | hb
    · simp [stateAfterMove, hb]
    · by_cases hmv : (moveVec k).1 ≠ 0 ∨ (moveVec k).2 ≠ 0
      · simp [stateAfterMove, hb, hmv]
      · have hs : stateAfterMove env p k dt = p.state := by
          rw [stateAfterMove, if_neg (by simp [hb]), if_neg hmv]
        rw [hs, hstate]
        constructor
        · intro h
          exact absurd h (by decide)
        · intro hconj
          exact absurd hconj.1 hmv
  · intro hz
    have h1 : (moveVec k).1 = 0 := by rw [hz]
    have h2 : (moveVec k).2 = 0 := by rw [hz]
    have hcond : ¬((moveVec k).1 ≠ 0 ∨ (moveVec k).2 ≠ 0) :=
      not_or.mpr ⟨fun hne => hne h1, fun hne => hne h2⟩
    rw [updatePlayer_state]
    rcases Bool.eq_false_or_eq_true (blockedOf env p k dt) with hb | hb
    · simp [stateAfterMove, hb]
    · rw [stateAfterMove, if_neg (by simp [hb]), if_neg hcond, hstate]
  · intro hb
    rw [updatePlayer_state]
    simp [stateAfterMove, hb]
  · intro hb hclamp
    rw [updatePlayer_pos]
    have hc : committedPos env p k dt = (p.x, p.y) := by simp [committedPos, hb]
    rw [hc, hclamp]

/-- Witness for C5 at the blocked scenario tick: the state after the tick is
not `walk` (the move toward the collider is rejected). -/
theorem tick_walk_iff_nonzero_committed_witness :
    (updatePlayer envC9 pC9 kD kNone 50).state = .idle :=
  (tick_walk_iff_nonzero_committed envC9 pC9 kD kNone 50 rfl).2.2.1
    (by norm_num [blockedOf, candidateRect, candidatePos, moveVec, checkMovement,
      intersectsRect, envC9, pC9, kD])

/-! ## Claim C6 -/

/-- No request is issued on a tick whose previous snapshot already had the
space key down: the `pressed && !previouslyPressed` edge test fails. -/
theorem requestOf_none_of_prev_space (env : Env) (p : Player) (k kp : Keys) (dt : ℚ)
    (h : kp.space = true) : requestOf env p k kp dt = none := by
  rw [requestOf]
  split
  · split
    · simp [h]
    · rfl
  · rfl

/-- Across a run, each tick output records the snapshot of that tick as the
advanced previous-keys buffer: the buffer is advanced exactly once per
tick. -/
theorem runTicks_map_keysPrev (env : Env) (inputs : List (Keys × ℚ)) :
    ∀ (p : Player) (kp : Keys),
      ((runTicks env p kp inputs).map fun o => o.keysPrev) = inputs.map Prod.fst := by
  induction inputs with
  | nil => intro p kp; rfl
  | cons kdt rest ih =>
      intro p kp
      simp [runTicks, ih]

/-- When the space key is down in every snapshot of a run and was already
down before the run started, no tick of the run issues a request. -/
theorem runTicks_request_none (env : Env) (inputs : List (Keys × ℚ)) :
    ∀ (p : Player) (kp : Keys),
      (∀ x ∈ inputs, (Prod.fst x).space = true) → kp.space = true →
      ∀ o ∈ runTicks env p kp inputs, o.request = none := by
  induction inputs with
  | nil =>
      intro p kp _ _ o ho
      simp [runTicks] at ho
  | cons kdt rest ih =>
      intro p kp hheld hkp o ho
      simp only [runTicks, List.mem_cons] at ho
      rcases ho with hh | hh
      · rw [hh, updatePlayer_request]
        exact requestOf_none_of_prev_space env p kdt.1 kp kdt.2 hkp
      · exact ih (stepPlayer p (updatePlayer env p kdt.1 kp kdt.2))
          (updatePlayer env p kdt.1 kp kdt.2).keysPrev
          (fun x hx => hheld x (List.mem_cons_of_mem _ hx))
          (by rw [updatePlayer_keysPrev]; exact hheld kdt (List.mem_cons_self _ _))
          o hh

/-- Claim C6: across any run of consecutive ticks in which the interact key
is held down in every snapshot, at most one scene-transition request is
issued, and only the first tick of the run — and only when the key was not
already down before the run — can issue it; the first tick does issue the
request when the player rectangle then overlaps a door with a truthy
destination; and the previous-input buffer is advanced exactly once per
tick, recording each snapshot after its edge-sensitive reads. -/
theorem interact_edge_triggers_at_most_once (env : Env) (p : Player) (kp : Keys)
    (inputs : List (Keys × ℚ))
    (hheld : ∀ x ∈ inputs, (Prod.fst x).space = true) :
    (∀ i o, (runTicks env p kp inputs).get? i = some o → o.request.isSome = true →
      i = 0 ∧ kp.space = false)
    ∧ ((runTicks env p kp inputs).filter fun o => o.request.isSome).length ≤ 1
    ∧ ((runTicks env p kp inputs).map fun o => o.keysPrev) = inputs.map Prod.fst
    ∧ (∀ k0 dt0 rest, inputs = (k0, dt0) :: rest →
        kp.space = false → env.hasCollision = true → env.hasSceneManager = true →
        ∀ it, findInteractiveOverlap env.interactives (committedRect env p k0 dt0) = some it →
          it.ty = "door" → ∀ d, it.dest = some d → d ≠ "" →
          ((runTicks env p kp inputs).map fun o => o.request).head? =
            some (some (d, it.spawn))) := by
  cases inputs with
  | nil =>
      refine ⟨?_, ?_, runTicks_map_keysPrev env [] p kp, ?_⟩
      · intro i o hget
        simp [runTicks] at hget
      · simp [runTicks]
      · intro k0 dt0 rest heq
        exact absurd heq (by simp)
  | cons kdt rest =>
      have hk0 : kdt.1.space = true := hheld kdt (List.mem_cons_self _ _)
      have hrest : ∀ x ∈ rest, (Prod.fst x).space = true :=
        fun x hx => hheld x (List.mem_cons_of_mem _ hx)
      have htail : ∀ o ∈ runTicks env (stepPlayer p (updatePlayer env p kdt.1 kp kdt.2))
          (updatePlayer env p kdt.1 kp kdt.2).keysPrev rest, o.request = none :=
        runTicks_request_none env rest _ _ hrest
          (by rw [updatePlayer_keysPrev]; exact hk0)
      refine ⟨?_, ?_, runTicks_map_keysPrev env (kdt :: rest) p kp, ?_⟩
      · intro i o hget hsome
        cases i with
        | zero =>
            refine ⟨rfl, ?_⟩
            have hget0 : (runTicks env p kp (kdt :: rest)).get? 0 =
                some (updatePlayer env p kdt.1 kp kdt.2) := rfl
            rw [hget0] at hget
            injection hget with ho
            rcases Bool.eq_false_or_eq_true kp.space with hkp | hkp
            · exfalso
              rw [← ho, updatePlayer_request,
                requestOf_none_of_prev_space env p kdt.1 kp kdt.2 hkp] at hsome
              simp at hsome
            · exact hkp
        | succ j =>
            exfalso
            have hget' : (runTicks env (stepPlayer p (updatePlayer env p kdt.1 kp kdt.2))
                (updatePlayer env p kdt.1 kp kdt.2).keysPrev rest).get? j = some o := hget
            have hmem := List.get?_mem hget'
            rw [htail o hmem] at hsome
            simp at hsome
      · have hfr : (runTicks env (stepPlayer p (updatePlayer env p kdt.1 kp kdt.2))
            (updatePlayer env p kdt.1 kp kdt.2).keysPrev rest).filter
              (fun o => o.request.isSome) = [] := by
          rw [List.filter_eq_nil_iff]
          intro o ho
          rw [htail o ho]
          simp
        have hru : runTicks env p kp (kdt :: rest) =
            updatePlayer env p kdt.1 kp kdt.2 ::
              runTicks env (stepPlayer p (updatePlayer env p kdt.1 kp kdt.2))
                (updatePlayer env p kdt.1 kp kdt.2).keysPrev rest := rfl
        rw [hru, List.filter_cons, hfr]
        split
        · simp
        · simp
      · intro k0 dt0 rest2 heq hkp hcs hsm it hit hdoor d hd hdne
        injection heq with h1 h2
        subst h1
        subst h2
        have hk0s : k0.space = true := hk0
        have hru : runTicks env p kp ((k0, dt0) :: rest) =
            updatePlayer env p k0 kp dt0 ::
              runTicks env (stepPlayer p (updatePlayer env p k0 kp dt0))
                (updatePlayer env p k0 kp dt0).keysPrev rest := rfl
        rw [hru]
        simp only [List.map_cons, List.head?_cons, updatePlayer_request]
        rw [requestOf, hcs, hsm]
        simp [hit, hdoor, hd, hk0s, hkp, hdne]

/-- Inputs of the C6 witness run: the space key held across two ticks. -/
def insHeld : List (Keys × ℚ) := [(kSpace, 16), (kSpace, 16)]

/-- Witness for C6: over a two-tick run with the space key held on the door
scene, at most one transition request is issued. -/
theorem interact_edge_triggers_at_most_once_witness :
    ((runTicks envC10 pC9 kNone insHeld).filter fun o => o.request.isSome).length ≤ 1 :=
  (interact_edge_triggers_at_most_once envC10 pC9 kNone insHeld (by
    intro x hx
    simp only [insHeld, List.mem_cons] at hx
    rcases hx with h | hx2
    · rw [h]; rfl
    · rcases hx2 with h | hx3
      · rw [h]; rfl
      · simp at hx3)).2.1

end DixonsPeak
